import Mathlib

/-!
Shallow embedding of the relevance-filtering and context-assembly pipeline of
the ITMO master-programs chat bot (`utils/ai_assistant.py`) and of the record
store it talks to (`models/database.py`).

Conventions of the embedding:
* Python `str` is Lean `String`; Python machine-independent `int` is `Int`.
* Python dictionaries read with `dict.get(key, default)` are modelled as
  structures with `Option` fields (`none` = key absent) read with `Option.getD`.
* Effectful collaborator calls made inside `AIAssistant.get_response` and the
  three report generators (record-store reads, the OpenAI chat-completion call)
  are modelled by injecting the outcome of each call site as a `PyResult`
  parameter: `PyResult.exn` stands for the call raising an exception, which the
  surrounding `try/except` of the source absorbs.
* Observable effects (conversation-log writes, number of model invocations,
  the message sequence sent to the model) are returned explicitly.
-/

/-- Whitespace test used by Python `str.split()` / `str.strip()` restricted to
the ASCII whitespace characters (space, tab, newline, carriage return,
vertical tab, form feed). -/
def isSpace (c : Char) : Bool :=
  decide (c.toNat = 32 ∨ (9 ≤ c.toNat ∧ c.toNat ≤ 13))

/-- Lower-casing of one character as Python `str.lower()` performs it on the
alphabets that occur in this repository: ASCII `A`-`Z` and Cyrillic `А`-`Я`
(codepoints 1040-1071) shift by 32, `Ё` (1025) maps to `ё` (1105); every other
character is unchanged. -/
def lowerChar (c : Char) : Char :=
  if 65 ≤ c.toNat ∧ c.toNat ≤ 90 then Char.ofNat (c.toNat + 32)
  else if 1040 ≤ c.toNat ∧ c.toNat ≤ 1071 then Char.ofNat (c.toNat + 32)
  else if c.toNat = 1025 then Char.ofNat 1105
  else c

/-- Python `question.lower()`. -/
def pyLower (s : String) : String :=
  String.mk (s.toList.map lowerChar)

/-- Helper for substring search: does `needle` occur at the very front of
`hay`? -/
def leadsWith : List Char → List Char → Bool
  | [], _ => true
  | _ :: _, [] => false
  | a :: as, b :: bs => a == b && leadsWith as bs

/-- Helper for substring search: does `needle` occur anywhere in `hay`?
Mirrors the semantics of Python's `needle in hay` on strings (an empty needle
occurs in every string). -/
def hasSub (needle : List Char) : List Char → Bool
  | [] => leadsWith needle []
  | b :: bs => leadsWith needle (b :: bs) || hasSub needle bs

/-- Python's `needle in hay` substring test on strings. -/
def strIn (needle hay : String) : Bool :=
  hasSub needle.toList hay.toList

/-- Token counter behind `len(s.split())`: counts maximal runs of
non-whitespace characters.  The flag records whether the scan is currently
inside a token. -/
def tokCountAux : Bool → List Char → Nat
  | _, [] => 0
  | inTok, c :: cs =>
    if isSpace c then tokCountAux false cs
    else (if inTok then 0 else 1) + tokCountAux true cs

/-- Python `len(s.split())`: the number of whitespace-separated tokens. -/
def pySplitLen (s : String) : Nat :=
  tokCountAux false s.toList

/-- Python `s.strip()`: drop leading and trailing whitespace. -/
def pyStrip (s : String) : String :=
  String.mk (((s.toList.dropWhile isSpace).reverse.dropWhile isSpace).reverse)

/-- The `irrelevant_keywords` list of `AIAssistant.is_relevant_question`. -/
def irrelevant_keywords : List String :=
  ["погода", "спорт", "политика", "новости", "рецепт", "фильм", "музыка",
   "игра", "автомобиль", "путешествие", "здоровье", "футбол", "борщ",
   "приготовить", "купить", "телефон"]

/-- The `relevant_keywords` list of `AIAssistant.is_relevant_question`. -/
def relevant_keywords : List String :=
  ["итмо", "магистр", "поступление", "обучение", "программа", "программы",
   "искусственный интеллект", "машинное обучение", "ai", "ml", "продукт",
   "карьера", "экзамен", "документы", "бюджет", "контракт", "стипендия",
   "общежитие", "университет", "вуз", "отличаются", "разница", "сравнить",
   "подходит", "требования", "стоимость", "стоит", "перспективы", "доступны"]

/-- Embedding of `AIAssistant.is_relevant_question`: lower-case the question,
return `false` on any irrelevant-keyword hit, else `true` on any
relevant-keyword hit, else fall back to the token-count heuristic
(`≤ 2` tokens → `false`, `> 3` tokens → `true`, otherwise → `false`). -/
def is_relevant_question (question : String) : Bool :=
  let question_lower := pyLower question
  if irrelevant_keywords.any (fun k => strIn k question_lower) then false
  else if relevant_keywords.any (fun k => strIn k question_lower) then true
  else if pySplitLen question_lower ≤ 2 then false
  else if 3 < pySplitLen question_lower then true
  else false

/-- One entry of `Program.directions` (a Python dict read with
`dict.get(key, default)` in `_format_directions`; `none` = key absent). -/
structure Dir where
  name : Option String
  code : Option String
  budget_places : Option Int
  target_places : Option Int
  contract_places : Option Int

/-- One entry of `Program.faq` (a Python dict read with `qa.get(key, '')` in
`_format_faq`). -/
structure FaqItem where
  question : Option String
  answer : Option String

/-- One entry of `Program.team` (shape produced by the scraper's
`_extract_team`: name, position, description keys). -/
structure TeamMember where
  name : Option String
  position : Option String
  description : Option String

/-- The `Program` dataclass of `models/database.py`. -/
structure Program where
  name : String
  url : String
  institute : String
  duration : String
  language : String
  cost : String
  description : String
  directions : List Dir
  career_prospects : List String
  partners : List String
  team : List TeamMember
  admission_ways : List String
  faq : List FaqItem
  exam_dates : List String
  created_at : String
  updated_at : String

/-- The `UserProfile` dataclass of `models/database.py`.  The free-form
`background` dict is modelled by the text it renders to when interpolated
into an f-string. -/
structure UserProfile where
  user_id : Int
  username : String
  background : String
  interests : List String
  technical_skills : List String
  career_goals : List String
  preferred_program : Option String
  created_at : String
  updated_at : String

/-- One row of the `conversations` table. -/
structure Conversation where
  user_id : Int
  message : String
  response : String
  timestamp : String

/-- State of the SQLite store of `models/database.py`: the three tables, each
as its list of rows in rowid order.  The JSON encoding/decoding that
`save_program`/`get_program` apply to the structured columns is the identity
on the modelled value domain, so rows hold the structured values directly. -/
structure Database where
  programs : List Program
  user_profiles : List UserProfile
  conversations : List Conversation

/-- Embedding of `Database.save_program`: `INSERT OR REPLACE` keyed on the
`UNIQUE` column `name` deletes any conflicting row and inserts the new row
with a fresh autoincrement rowid, i.e. at the end. -/
def save_program (db : Database) (program : Program) : Database :=
  { db with programs :=
      db.programs.filter (fun r => r.name != program.name) ++ [program] }

/-- Embedding of `Database.get_program`: `SELECT * FROM programs WHERE
name = ?` followed by `fetchone()` — the first row with that name. -/
def get_program (db : Database) (name : String) : Option Program :=
  db.programs.find? (fun r => r.name == name)

/-- Embedding of `Database.get_all_programs`: `SELECT * FROM programs`. -/
def get_all_programs (db : Database) : List Program :=
  db.programs

/-- Embedding of `Database.get_user_profile`. -/
def get_user_profile (db : Database) (user_id : Int) : Option UserProfile :=
  db.user_profiles.find? (fun r => r.user_id == user_id)

/-- Embedding of `Database.save_user_profile` (`INSERT OR REPLACE` keyed on
`user_id`). -/
def save_user_profile (db : Database) (profile : UserProfile) : Database :=
  { db with user_profiles :=
      db.user_profiles.filter (fun r => r.user_id != profile.user_id) ++ [profile] }

/-- Embedding of `Database.save_conversation`: plain `INSERT` (append). -/
def save_conversation (db : Database) (user_id : Int)
    (message response timestamp : String) : Database :=
  { db with conversations :=
      db.conversations ++ [⟨user_id, message, response, timestamp⟩] }

/-- Applying a list of conversation-log writes to a store state. -/
def apply_log (db : Database) (writes : List Conversation) : Database :=
  { db with conversations := db.conversations ++ writes }

/-- The two lines `AIAssistant._format_directions` emits for one direction
(four `result +=` statements of the source, concatenated). -/
def dirLine (direction : Dir) : String :=
  "- " ++ direction.name.getD "N/A" ++ " (" ++ direction.code.getD "N/A" ++ ")\n" ++
  "  Бюджет: " ++ toString (direction.budget_places.getD 0) ++ ", " ++
  "Целевые: " ++ toString (direction.target_places.getD 0) ++ ", " ++
  "Контракт: " ++ toString (direction.contract_places.getD 0) ++ "\n"

/-- The accumulation loop of `_format_directions`. -/
def dirLines : List Dir → String
  | [] => ""
  | d :: ds => dirLine d ++ dirLines ds

/-- Embedding of `AIAssistant._format_directions`. -/
def format_directions (directions : List Dir) : String :=
  if directions.isEmpty then "Информация о направлениях не найдена"
  else dirLines directions

/-- The Q/A pair `AIAssistant._format_faq` emits for one FAQ entry. -/
def qaPair (qa : FaqItem) : String :=
  "Q: " ++ qa.question.getD "" ++ "\n" ++ "A: " ++ qa.answer.getD "" ++ "\n\n"

/-- The accumulation loop of `_format_faq`. -/
def qaLines : List FaqItem → String
  | [] => ""
  | qa :: rest => qaPair qa ++ qaLines rest

/-- Embedding of `AIAssistant._format_faq`: sentinel on an empty list,
otherwise the first five entries (`faq[:5]`) rendered as Q/A pairs. -/
def format_faq (faq : List FaqItem) : String :=
  if faq.isEmpty then "FAQ не найден"
  else qaLines (faq.take 5)

/-- The per-program block of `AIAssistant.get_programs_context` (the
multi-line f-string of the source, with `', '.join` as
`String.intercalate ", "`). -/
def program_block (p : Program) : String :=
  "\nПРОГРАММА: " ++ p.name ++
  "\nURL: " ++ p.url ++
  "\nИнститут: " ++ p.institute ++
  "\nДлительность: " ++ p.duration ++
  "\nЯзык обучения: " ++ p.language ++
  "\nСтоимость: " ++ p.cost ++
  "\n\nОписание: " ++ p.description ++
  "\n\nНаправления подготовки:\n" ++ format_directions p.directions ++
  "\n\nКарьерные перспективы:\n" ++ String.intercalate ", " p.career_prospects ++
  "\n\nПартнеры:\n" ++ String.intercalate ", " p.partners ++
  "\n\nСпособы поступления:\n" ++ String.intercalate ", " p.admission_ways ++
  "\n\nДаты экзаменов:\n" ++ String.intercalate ", " p.exam_dates ++
  "\n\nFAQ:\n" ++ format_faq p.faq ++
  "\n\n---\n"

/-- The accumulation loop of `get_programs_context` over the stored
programs. -/
def programBlocks : List Program → String
  | [] => ""
  | p :: ps => program_block p ++ programBlocks ps

/-- Embedding of `AIAssistant.get_programs_context`, as a function of the
list returned by the `db.get_all_programs()` collaborator call. -/
def get_programs_context (programs : List Program) : String :=
  programBlocks programs

/-- Outcome of one Python call site: the value it returned, or the exception
it raised. -/
inductive PyResult (α : Type) where
  | ok (val : α)
  | exn (msg : String)

/-- One chat message of the OpenAI `messages` list. -/
structure Msg where
  role : String
  content : String

/-- Outcomes of the collaborator calls one pipeline run performs, injected as
parameters of the run: `profileStep` is `self.db.get_user_profile(user_id)`,
`programsStep` is `self.db.get_all_programs()` (inside
`get_programs_context`), `modelStep` is the chat-completion call together
with the `response.choices[0].message.content` extraction (`ok none` models a
`null` message content, whose subsequent `.strip()` raises).  `timestamp` is
`datetime.now().isoformat()`. -/
structure Env where
  profileStep : PyResult (Option UserProfile)
  programsStep : PyResult (List Program)
  modelStep : PyResult (Option String)
  timestamp : String

/-- Observable result of one public operation: the returned string, the
conversation-log writes performed, the number of model invocations, and the
message sequence handed to the model (when it was invoked). -/
structure CallOut where
  reply : String
  logWrites : List Conversation
  modelCalls : Nat
  sent : Option (List Msg)

/-- The `self.system_prompt` literal of `AIAssistant.__init__`. -/
def system_prompt : String :=
  "\nТы - эксперт-консультант по магистерским программам ИТМО в области искусственного интеллекта.\nТвоя задача - помочь абитуриентам выбрать подходящую программу и спланировать обучение.\n\nУ тебя есть доступ к информации о двух программах:\n1. \"Искусственный интеллект\" - техническая программа с фокусом на ML Engineering, Data Engineering, AI Product Development\n2. \"Управление ИИ-продуктами/AI Product\" - продуктовая программа с фокусом на AI Product Management\n\nВАЖНЫЕ ПРАВИЛА:\n- Отвечай ТОЛЬКО на вопросы, связанные с этими двумя магистерскими программами ИТМО\n- Если вопрос не касается обучения в данных магистратурах, вежливо перенаправь пользователя к релевантной теме\n- Используй только проверенную информацию из базы данных\n- Давай конкретные и практичные рекомендации\n- Учитывай бэкграунд и цели абитуриента при составлении рекомендаций\n\nФормат ответов:\n- Структурированные и информативные\n- С конкретными примерами\n- С учетом карьерных перспектив\n- С рекомендациями по выборным дисциплинам (если применимо)\n"

/-- The fixed redirect `get_response` returns for an out-of-scope question;
it names the two in-scope programs. -/
def redirect_message : String :=
  "\nЯ специализируюсь только на вопросах, связанных с магистерскими программами ИТМО в области искусственного интеллекта:\n• \"Искусственный интеллект\"\n• \"Управление ИИ-продуктами/AI Product\"\n\nПожалуйста, задайте вопрос о поступлении, обучении, карьерных перспективах или других аспектах этих программ.\n"

/-- The single fixed apology `get_response` returns from its `except`
handler. -/
def apology_message : String :=
  "Извините, произошла ошибка при обработке вашего запроса. Попробуйте еще раз."

/-- The fixed fallback of `generate_program_recommendation`. -/
def recommendation_error_message : String :=
  "Не удалось сгенерировать рекомендацию. Попробуйте позже."

/-- The fixed fallback of `compare_programs`. -/
def compare_error_message : String :=
  "Не удалось выполнить сравнение программ. Попробуйте позже."

/-- The fixed fallback of `generate_admission_guide`. -/
def admission_error_message : String :=
  "Не удалось создать гид по поступлению. Попробуйте позже."

/-- Python `x or default` on an optional string: `None` and the empty string
both fall back to the default. -/
def pyOrStr (x : Option String) (default : String) : String :=
  match x with
  | none => default
  | some s => if s == "" then default else s

/-- The `profile_context` block `get_response` builds when a profile
exists. -/
def profile_context_block (p : UserProfile) : String :=
  "\nПРОФИЛЬ ПОЛЬЗОВАТЕЛЯ:\nИнтересы: " ++ String.intercalate ", " p.interests ++
  "\nТехнические навыки: " ++ String.intercalate ", " p.technical_skills ++
  "\nКарьерные цели: " ++ String.intercalate ", " p.career_goals ++
  "\nПредпочитаемая программа: " ++ pyOrStr p.preferred_program "не указана" ++ "\n"

/-- The user-turn content of the Ask prompt in `get_response`. -/
def ask_user_content (programs_context profile_context user_message : String) : String :=
  "\n" ++ programs_context ++ "\n\n" ++ profile_context ++
  "\n\nВОПРОС ПОЛЬЗОВАТЕЛЯ: " ++ user_message ++
  "\n\nПожалуйста, дай подробный и полезный ответ, основанный на предоставленной информации о программах.\n"

/-- The user-turn content of `generate_program_recommendation`. -/
def recommend_user_content (programs_context : String) (p : UserProfile) : String :=
  "\n" ++ programs_context ++
  "\n\nПРОФИЛЬ АБИТУРИЕНТА:\nИнтересы: " ++ String.intercalate ", " p.interests ++
  "\nТехнические навыки: " ++ String.intercalate ", " p.technical_skills ++
  "\nКарьерные цели: " ++ String.intercalate ", " p.career_goals ++
  "\nДополнительная информация: " ++ p.background ++
  "\n\nЗАДАЧА: Проанализируй профиль абитуриента и дай детальную рекомендацию:\n1. Какая программа лучше подходит и почему\n2. Конкретные преимущества выбранной программы для данного профиля\n3. Рекомендации по подготовке к поступлению\n4. Suggested траектория обучения (какие курсы/проекты выбрать)\n5. Карьерные перспективы после окончания\n\nБудь конкретным и обоснованным в своих рекомендациях.\n"

/-- The user-turn content of `compare_programs`. -/
def compare_user_content (programs_context : String) : String :=
  "\n" ++ programs_context ++
  "\n\nЗАДАЧА: Создай подробное сравнение двух программ магистратуры ИТМО:\n\nСравни программы по следующим критериям:\n1. Фокус и специализация\n2. Карьерные возможности\n3. Партнеры и проекты\n4. Направления подготовки и количество мест\n5. Способы поступления\n6. Для кого подходит каждая программа\n\nПредставь информацию в структурированном виде, выделяя ключевые различия.\n"

/-- The user-turn content of `generate_admission_guide`. -/
def admission_user_content (programs_context : String) : String :=
  "\n" ++ programs_context ++
  "\n\nЗАДАЧА: Создай подробный гид по поступлению на программы магистратуры ИТМО по ИИ.\n\nВключи следующую информацию:\n1. Все способы поступления (экзамены, конкурсы, портфолио и т.д.)\n2. Даты и сроки\n3. Требования и документы\n4. Советы по подготовке к каждому способу поступления\n5. Количество мест на каждом направлении\n6. Стоимость обучения и возможности получения стипендий\n\nСтруктурируй информацию так, чтобы она была максимально полезна для абитуриента.\n"

/-- Embedding of `AIAssistant.get_response`.  The whole body of the source
sits inside one `try/except Exception`, so an exception raised at any step
short-circuits to the fixed apology; the classifier runs first and returns
the fixed redirect without touching any collaborator; on success the stripped
model text is logged once and returned. -/
def get_response (env : Env) (user_message : String) (user_id : Int) : CallOut :=
  if is_relevant_question user_message = false then
    { reply := redirect_message, logWrites := [], modelCalls := 0, sent := none }
  else
    match env.profileStep with
    | PyResult.exn _ =>
        { reply := apology_message, logWrites := [], modelCalls := 0, sent := none }
    | PyResult.ok user_profile =>
      let profile_context :=
        match user_profile with
        | none => ""
        | some p => profile_context_block p
      match env.programsStep with
      | PyResult.exn _ =>
          { reply := apology_message, logWrites := [], modelCalls := 0, sent := none }
      | PyResult.ok programs =>
        let programs_context := get_programs_context programs
        let messages : List Msg :=
          [⟨"system", system_prompt⟩,
           ⟨"user", ask_user_content programs_context profile_context user_message⟩]
        match env.modelStep with
        | PyResult.exn _ =>
            { reply := apology_message, logWrites := [], modelCalls := 1,
              sent := some messages }
        | PyResult.ok none =>
            { reply := apology_message, logWrites := [], modelCalls := 1,
              sent := some messages }
        | PyResult.ok (some content) =>
          let ai_response := pyStrip content
          { reply := ai_response,
            logWrites := [⟨user_id, user_message, ai_response, env.timestamp⟩],
            modelCalls := 1, sent := some messages }

/-- Embedding of `AIAssistant.generate_program_recommendation`. -/
def generate_program_recommendation (env : Env) (user_profile : UserProfile) : CallOut :=
  match env.programsStep with
  | PyResult.exn _ =>
      { reply := recommendation_error_message, logWrites := [], modelCalls := 0,
        sent := none }
  | PyResult.ok programs =>
    let messages : List Msg :=
      [⟨"system", system_prompt⟩,
       ⟨"user", recommend_user_content (get_programs_context programs) user_profile⟩]
    match env.modelStep with
    | PyResult.exn _ =>
        { reply := recommendation_error_message, logWrites := [], modelCalls := 1,
          sent := some messages }
    | PyResult.ok none =>
        { reply := recommendation_error_message, logWrites := [], modelCalls := 1,
          sent := some messages }
    | PyResult.ok (some content) =>
        { reply := pyStrip content, logWrites := [], modelCalls := 1,
          sent := some messages }

/-- Embedding of `AIAssistant.compare_programs`. -/
def compare_programs (env : Env) : CallOut :=
  match env.programsStep with
  | PyResult.exn _ =>
      { reply := compare_error_message, logWrites := [], modelCalls := 0,
        sent := none }
  | PyResult.ok programs =>
    let messages : List Msg :=
      [⟨"system", system_prompt⟩,
       ⟨"user", compare_user_content (get_programs_context programs)⟩]
    match env.modelStep with
    | PyResult.exn _ =>
        { reply := compare_error_message, logWrites := [], modelCalls := 1,
          sent := some messages }
    | PyResult.ok none =>
        { reply := compare_error_message, logWrites := [], modelCalls := 1,
          sent := some messages }
    | PyResult.ok (some content) =>
        { reply := pyStrip content, logWrites := [], modelCalls := 1,
          sent := some messages }

/-- Embedding of `AIAssistant.generate_admission_guide`. -/
def generate_admission_guide (env : Env) : CallOut :=
  match env.programsStep with
  | PyResult.exn _ =>
      { reply := admission_error_message, logWrites := [], modelCalls := 0,
        sent := none }
  | PyResult.ok programs =>
    let messages : List Msg :=
      [⟨"system", system_prompt⟩,
       ⟨"user", admission_user_content (get_programs_context programs)⟩]
    match env.modelStep with
    | PyResult.exn _ =>
        { reply := admission_error_message, logWrites := [], modelCalls := 1,
          sent := some messages }
    | PyResult.ok none =>
        { reply := admission_error_message, logWrites := [], modelCalls := 1,
          sent := some messages }
    | PyResult.ok (some content) =>
        { reply := pyStrip content, logWrites := [], modelCalls := 1,
          sent := some messages }

/-- Embedding of the `try/except` of `Database.get_user_profile`: the whole
body sits inside `try/except Exception` and falls through to `return None`,
so a raising SQLite read surfaces to the caller as `None`, never as an
exception. -/
def db_get_user_profile_run (sqliteStep : PyResult (Option UserProfile)) :
    Option UserProfile :=
  match sqliteStep with
  | PyResult.ok v => v
  | PyResult.exn _ => none

/-- Embedding of the `try/except` of `Database.get_all_programs`: the read
loop sits inside `try/except Exception` and the accumulated `programs` list
is returned regardless, so a read failure surfaces as the rows accumulated
before the exception — the empty list when it raises up front (a mid-loop
failure is the `ok` outcome carrying the partial row list) — never as an
exception. -/
def db_get_all_programs_run (sqliteStep : PyResult (List Program)) :
    List Program :=
  match sqliteStep with
  | PyResult.ok rows => rows
  | PyResult.exn _ => []

/-- `get_response` as deployed: `AIAssistant.__init__` hard-wires the
concrete `Database`, whose read methods absorb their own exceptions (the two
runs above), so the profile and store read steps of `Env` always complete
normally and only the model call and the content extraction can raise inside
`get_response`'s `try` block. -/
def get_response_deployed (profileSqlite : PyResult (Option UserProfile))
    (programsSqlite : PyResult (List Program))
    (modelStep : PyResult (Option String))
    (timestamp user_message : String) (user_id : Int) : CallOut :=
  get_response
    ⟨PyResult.ok (db_get_user_profile_run profileSqlite),
     PyResult.ok (db_get_all_programs_run programsSqlite),
     modelStep, timestamp⟩
    user_message user_id

/-- Environment used to witness the out-of-scope theorem at a concrete
input. -/
def envOut : Env :=
  ⟨PyResult.ok none, PyResult.ok [], PyResult.ok none, ""⟩

/-- Environment whose model call raises. -/
def envFail : Env :=
  ⟨PyResult.ok none, PyResult.ok [], PyResult.exn "APIConnectionError", "2024-01-01T00:00:00"⟩

/-- Environment whose model call succeeds with padded text. -/
def envOk : Env :=
  ⟨PyResult.ok none, PyResult.ok [], PyResult.ok (some "  Ответ модели  "), "2024-01-01T00:00:00"⟩

theorem toNat_ofNat_valid {n : Nat} (h : n.isValidChar) : (Char.ofNat n).toNat = n := by
  simp [Char.ofNat, h, Char.ofNatAux, Char.toNat, UInt32.toNat, BitVec.toNat_ofNatLt]

theorem isSpace_lowerChar (c : Char) : isSpace (lowerChar c) = isSpace c := by
  unfold lowerChar
  split
  · have hv : (c.toNat + 32).isValidChar := Or.inl (by omega)
    simp only [isSpace, toNat_ofNat_valid hv]
    rw [decide_eq_decide]
    omega
  · split
    · have hv : (c.toNat + 32).isValidChar := Or.inl (by omega)
      simp only [isSpace, toNat_ofNat_valid hv]
      rw [decide_eq_decide]
      omega
    · split
      · have hv : (1105 : Nat).isValidChar := Or.inl (by omega)
        simp only [isSpace, toNat_ofNat_valid hv]
        rw [decide_eq_decide]
        omega
      · rfl

theorem tokCountAux_map_lowerChar (cs : List Char) :
    ∀ b, tokCountAux b (cs.map lowerChar) = tokCountAux b cs := by
  induction cs with
  | nil => intro b; rfl
  | cons c cs ih =>
    intro b
    simp only [List.map_cons, tokCountAux, isSpace_lowerChar]
    by_cases h : isSpace c = true
    · simp [h, ih]
    · simp [h, ih]

theorem pySplitLen_pyLower (s : String) : pySplitLen (pyLower s) = pySplitLen s := by
  unfold pySplitLen pyLower
  exact tokCountAux_map_lowerChar s.toList false

theorem leadsWith_append (n t : List Char) : leadsWith n (n ++ t) = true := by
  induction n with
  | nil => rfl
  | cons a as ih => simp [leadsWith, ih]

theorem hasSub_here (n t : List Char) : hasSub n (n ++ t) = true := by
  cases n with
  | nil => cases t <;> simp [hasSub, leadsWith]
  | cons a as =>
    simp only [List.cons_append, hasSub, Bool.or_eq_true]
    left
    exact leadsWith_append (a :: as) t

theorem hasSub_cons (n h : List Char) (c : Char) (hh : hasSub n h = true) :
    hasSub n (c :: h) = true := by
  cases n with
  | nil => simp [hasSub, leadsWith]
  | cons a as => simp [hasSub]; right; exact hh

theorem hasSub_append_left (pre n h : List Char) (hh : hasSub n h = true) :
    hasSub n (pre ++ h) = true := by
  induction pre with
  | nil => exact hh
  | cons c cs ih => exact hasSub_cons n (cs ++ h) c ih

theorem hasSub_of_parts (pre n post : List Char) :
    hasSub n (pre ++ (n ++ post)) = true :=
  hasSub_append_left pre n (n ++ post) (hasSub_here n post)

theorem strIn_of_parts (a x b : String) : strIn x (a ++ (x ++ b)) = true := by
  show hasSub x.data (a ++ (x ++ b)).data = true
  rw [String.data_append, String.data_append]
  exact hasSub_of_parts a.data x.data b.data

theorem dirLines_append (s t : List Dir) :
    dirLines (s ++ t) = dirLines s ++ dirLines t := by
  induction s with
  | nil =>
    apply String.ext
    simp [dirLines, String.data_append]
  | cons d ds ih =>
    apply String.ext
    simp [dirLines, ih, String.data_append]

theorem qaLines_append (s t : List FaqItem) :
    qaLines (s ++ t) = qaLines s ++ qaLines t := by
  induction s with
  | nil =>
    apply String.ext
    simp [qaLines, String.data_append]
  | cons qa rest ih =>
    apply String.ext
    simp [qaLines, ih, String.data_append]

theorem dirLine_data (d : Dir) : ∃ rest, (dirLine d).data = '-' :: ' ' :: rest := by
  simp only [dirLine, String.data_append]
  exact ⟨_, rfl⟩

theorem qaPair_data (qa : FaqItem) : ∃ rest, (qaPair qa).data = 'Q' :: ':' :: rest := by
  simp only [qaPair, String.data_append]
  exact ⟨_, rfl⟩

theorem dirLines_cons_ne_sentinel (d : Dir) (ds : List Dir) :
    dirLines (d :: ds) ≠ "Информация о направлениях не найдена" := by
  intro h
  have hdata := congrArg String.data h
  obtain ⟨rest, hd⟩ := dirLine_data d
  rw [show dirLines (d :: ds) = dirLine d ++ dirLines ds from rfl,
      String.data_append, hd] at hdata
  simp at hdata

theorem dirLines_cons_ne_empty (d : Dir) (ds : List Dir) :
    dirLines (d :: ds) ≠ "" := by
  intro h
  have hdata := congrArg String.data h
  obtain ⟨rest, hd⟩ := dirLine_data d
  rw [show dirLines (d :: ds) = dirLine d ++ dirLines ds from rfl,
      String.data_append, hd] at hdata
  simp at hdata

theorem qaLines_cons_ne_sentinel (qa : FaqItem) (rest : List FaqItem) :
    qaLines (qa :: rest) ≠ "FAQ не найден" := by
  intro h
  have hdata := congrArg String.data h
  obtain ⟨r, hd⟩ := qaPair_data qa
  rw [show qaLines (qa :: rest) = qaPair qa ++ qaLines rest from rfl,
      String.data_append, hd] at hdata
  simp at hdata

theorem find?_filter_append_self (l : List Program) (p : Program) :
    ((l.filter (fun r => r.name != p.name)) ++ [p]).find?
      (fun r => r.name == p.name) = some p := by
  induction l with
  | nil => simp [List.find?]
  | cons a as ih =>
    by_cases h : a.name == p.name
    · simp [List.filter_cons, bne, h, ih]
    · simp [List.filter_cons, bne, h, List.find?_cons, ih]

theorem filter_eq_of_filter_ne (l : List Program) (n : String) :
    (l.filter (fun r => r.name != n)).filter (fun r => r.name == n) = [] := by
  induction l with
  | nil => rfl
  | cons a as ih =>
    by_cases h : a.name == n
    · simp [List.filter_cons, bne, h, ih]
    · simp [List.filter_cons, bne, h, ih]

theorem filter_ne_idem (l : List Program) (n : String) :
    (l.filter (fun r => r.name != n)).filter (fun r => r.name != n)
      = l.filter (fun r => r.name != n) := by
  induction l with
  | nil => rfl
  | cons a as ih =>
    by_cases h : a.name == n
    · simp [List.filter_cons, bne, h, ih]
    · simp [List.filter_cons, bne, h, ih]

/-- C2: for every question string in which some exclusion keyword occurs as a
substring of the lower-cased text, `is_relevant_question` returns `false`,
regardless of any inclusion keywords that also occur (exclusion keywords are
checked first and return immediately). -/
theorem relevance_exclusion_precedence (question : String)
    (h : ∃ k ∈ irrelevant_keywords, strIn k (pyLower question) = true) :
    is_relevant_question question = false := by
  have hany : irrelevant_keywords.any (fun k => strIn k (pyLower question)) = true :=
    List.any_eq_true.mpr h
  unfold is_relevant_question
  simp [hany]

/-- Witness for C2 at a concrete input that contains the exclusion keyword
`погода` together with the inclusion keywords `поступление` and `итмо`. -/
theorem relevance_exclusion_precedence_witness :
    is_relevant_question "Как погода влияет на поступление в ИТМО?" = false :=
  relevance_exclusion_precedence "Как погода влияет на поступление в ИТМО?"
    ⟨"погода", by decide, by decide⟩

/-- C3: when neither keyword list matches the lower-cased question,
`is_relevant_question` falls back to the whitespace-token count: `false` for
at most 3 tokens (including exactly 3) and `true` for more than 3. -/
theorem relevance_length_fallback (question : String)
    (hex : ∀ k ∈ irrelevant_keywords, strIn k (pyLower question) = false)
    (hin : ∀ k ∈ relevant_keywords, strIn k (pyLower question) = false) :
    (pySplitLen question ≤ 3 → is_relevant_question question = false) ∧
    (3 < pySplitLen question → is_relevant_question question = true) := by
  have hex' : irrelevant_keywords.any (fun k => strIn k (pyLower question)) = false := by
    cases hca : irrelevant_keywords.any (fun k => strIn k (pyLower question)) with
    | false => rfl
    | true =>
      obtain ⟨k, hk, hks⟩ := List.any_eq_true.mp hca
      rw [hex k hk] at hks
      cases hks
  have hin' : relevant_keywords.any (fun k => strIn k (pyLower question)) = false := by
    cases hca : relevant_keywords.any (fun k => strIn k (pyLower question)) with
    | false => rfl
    | true =>
      obtain ⟨k, hk, hks⟩ := List.any_eq_true.mp hca
      rw [hin k hk] at hks
      cases hks
  unfold is_relevant_question
  simp only [hex', hin', Bool.false_eq_true, if_false, pySplitLen_pyLower]
  constructor
  · intro hle
    split_ifs <;> first | rfl | omega
  · intro hgt
    split_ifs <;> first | rfl | omega

/-- Witness for C3: a keyword-free 3-token question classifies `false`, a
keyword-free 4-token question classifies `true`. -/
theorem relevance_length_fallback_witness :
    is_relevant_question "аа бб вв" = false ∧ is_relevant_question "аа бб вв гг" = true :=
  ⟨(relevance_length_fallback "аа бб вв" (by decide) (by decide)).1 (by decide),
   (relevance_length_fallback "аа бб вв гг" (by decide) (by decide)).2 (by decide)⟩

/-- C1: for every question `is_relevant_question` classifies as not relevant,
`get_response` returns the fixed redirect message (which names the two
in-scope programs), invokes the model collaborator zero times, and performs
no conversation-log write, leaving any record-store state unchanged. -/
theorem answer_out_of_scope (env : Env) (question : String) (user_id : Int)
    (h : is_relevant_question question = false) :
    (get_response env question user_id).reply = redirect_message ∧
    strIn "Искусственный интеллект" redirect_message = true ∧
    strIn "Управление ИИ-продуктами/AI Product" redirect_message = true ∧
    (get_response env question user_id).modelCalls = 0 ∧
    (get_response env question user_id).logWrites = [] ∧
    (∀ db : Database, apply_log db (get_response env question user_id).logWrites = db) := by
  have hg : get_response env question user_id =
      { reply := redirect_message, logWrites := [], modelCalls := 0, sent := none } := by
    unfold get_response
    rw [h]
    simp
  refine ⟨by rw [hg], by decide, by decide, by rw [hg], by rw [hg], ?_⟩
  intro db
  rw [hg]
  simp [apply_log]

/-- Witness for C1 at the concrete out-of-scope question of the test suite. -/
theorem answer_out_of_scope_witness :
    (get_response envOut "Какая сегодня погода?" 1).reply = redirect_message ∧
    (get_response envOut "Какая сегодня погода?" 1).modelCalls = 0 ∧
    (get_response envOut "Какая сегодня погода?" 1).logWrites = [] := by
  obtain ⟨h1, _, _, h4, h5, _⟩ :=
    answer_out_of_scope envOut "Какая сегодня погода?" 1 (by decide)
  exact ⟨h1, h4, h5⟩

/-- C4: for a relevant question whose model call raises, `get_response`
returns the fixed apology string, invokes the model exactly once (no retry),
and performs no conversation-log write. -/
theorem answer_model_failure (env : Env) (question : String) (user_id : Int)
    (hrel : is_relevant_question question = true)
    (hprof : ∃ prof, env.profileStep = PyResult.ok prof)
    (hprogs : ∃ progs, env.programsStep = PyResult.ok progs)
    (hmodel : ∃ e, env.modelStep = PyResult.exn e) :
    (get_response env question user_id).reply = apology_message ∧
    (get_response env question user_id).logWrites = [] ∧
    (get_response env question user_id).modelCalls = 1 := by
  obtain ⟨prof, hp⟩ := hprof
  obtain ⟨progs, hg⟩ := hprogs
  obtain ⟨e, hm⟩ := hmodel
  simp [get_response, hrel, hp, hg, hm]

/-- Witness for C4: concrete relevant question, environment whose model call
raises. -/
theorem answer_model_failure_witness :
    (get_response envFail "Расскажите про ИТМО" 5).reply = apology_message ∧
    (get_response envFail "Расскажите про ИТМО" 5).logWrites = [] ∧
    (get_response envFail "Расскажите про ИТМО" 5).modelCalls = 1 :=
  answer_model_failure envFail "Расскажите про ИТМО" 5 (by decide)
    ⟨none, rfl⟩ ⟨[], rfl⟩ ⟨"APIConnectionError", rfl⟩

/-- C5: for a relevant question whose model call succeeds, `get_response`
performs exactly one conversation-log write, whose message field is the
literal user question and whose response field is the whitespace-trimmed
model output, and returns that same trimmed text. -/
theorem answer_success (env : Env) (question : String) (user_id : Int)
    (prof : Option UserProfile) (progs : List Program) (content : String)
    (hrel : is_relevant_question question = true)
    (hp : env.profileStep = PyResult.ok prof)
    (hg : env.programsStep = PyResult.ok progs)
    (hm : env.modelStep = PyResult.ok (some content)) :
    (get_response env question user_id).reply = pyStrip content ∧
    (get_response env question user_id).logWrites =
      [⟨user_id, question, pyStrip content, env.timestamp⟩] := by
  simp [get_response, hrel, hp, hg, hm]

/-- Witness for C5 at a concrete relevant question and padded model text. -/
theorem answer_success_witness :
    (get_response envOk "итмо поступление" 7).reply = pyStrip "  Ответ модели  " ∧
    (get_response envOk "итмо поступление" 7).logWrites =
      [⟨7, "итмо поступление", pyStrip "  Ответ модели  ", "2024-01-01T00:00:00"⟩] :=
  answer_success envOk "итмо поступление" 7 none [] "  Ответ модели  "
    (by decide) rfl rfl rfl

/-- Counterexample to C10 as stated: a record-store read failure and a
profile lookup failure are swallowed inside `Database` — its methods catch
every exception and return `[]`/`None` — so they never reach `get_response`'s
`except` handler, and with a succeeding model call the pipeline returns a
normal (degraded-context) answer, not the apology: the caller can distinguish
a store read failure from a model failure by the returned text. -/
theorem answer_swallowed_store_failure_cex :
    (get_response_deployed (PyResult.exn "sqlite3.OperationalError")
        (PyResult.exn "sqlite3.OperationalError")
        (PyResult.ok (some "Обе программы доступны."))
        "2024-01-03T00:00:00" "итмо" 3).reply = "Обе программы доступны." ∧
    (get_response_deployed (PyResult.exn "sqlite3.OperationalError")
        (PyResult.exn "sqlite3.OperationalError")
        (PyResult.ok (some "Обе программы доступны."))
        "2024-01-03T00:00:00" "итмо" 3).reply ≠ apology_message := by
  constructor
  · decide
  · decide

/-- C10 (amended): the internal failures that actually reach `get_response`'s
`except` handler — a raising model call or a malformed (`null` message
content) model response — all yield the one fixed apology string and no
conversation-log write, whatever the raw outcomes of the store and profile
reads were (those are swallowed inside `Database` and can never raise); the
handler-reaching causes are indistinguishable from the returned text. -/
theorem answer_handler_uniform_failure (profileSqlite : PyResult (Option UserProfile))
    (programsSqlite : PyResult (List Program)) (modelStep : PyResult (Option String))
    (timestamp question : String) (user_id : Int)
    (hrel : is_relevant_question question = true)
    (hm : (∃ e, modelStep = PyResult.exn e) ∨ modelStep = PyResult.ok none) :
    (get_response_deployed profileSqlite programsSqlite modelStep
        timestamp question user_id).reply = apology_message ∧
    (get_response_deployed profileSqlite programsSqlite modelStep
        timestamp question user_id).logWrites = [] := by
  rcases hm with ⟨e, he⟩ | he <;>
    subst he <;>
    simp [get_response_deployed, get_response, hrel]

/-- Witness for C10's amended theorem: a failing store read together with a
`null`-content model response still lands in the handler's single apology,
with no log write. -/
theorem answer_handler_uniform_failure_witness :
    (get_response_deployed (PyResult.exn "sqlite3.OperationalError")
        (PyResult.ok []) (PyResult.ok none) "2024-01-02T00:00:00" "итмо" 3).reply
      = apology_message ∧
    (get_response_deployed (PyResult.exn "sqlite3.OperationalError")
        (PyResult.ok []) (PyResult.ok none) "2024-01-02T00:00:00" "итмо" 3).logWrites
      = [] :=
  answer_handler_uniform_failure (PyResult.exn "sqlite3.OperationalError")
    (PyResult.ok []) (PyResult.ok none) "2024-01-02T00:00:00" "итмо" 3
    (by decide) (Or.inr rfl)

/-- C6: each of the four public operations is total from the caller's point
of view — for every collaborator outcome it returns a string, which is either
the operation's fixed redirect/fallback text or the trimmed model output;
no internal failure escapes as an exception. -/
theorem public_operations_total (env : Env) (question : String) (user_id : Int)
    (profile : UserProfile) :
    ((get_response env question user_id).reply = redirect_message ∨
     (get_response env question user_id).reply = apology_message ∨
     ∃ c, env.modelStep = PyResult.ok (some c) ∧
       (get_response env question user_id).reply = pyStrip c) ∧
    ((generate_program_recommendation env profile).reply = recommendation_error_message ∨
     ∃ c, env.modelStep = PyResult.ok (some c) ∧
       (generate_program_recommendation env profile).reply = pyStrip c) ∧
    ((compare_programs env).reply = compare_error_message ∨
     ∃ c, env.modelStep = PyResult.ok (some c) ∧
       (compare_programs env).reply = pyStrip c) ∧
    ((generate_admission_guide env).reply = admission_error_message ∨
     ∃ c, env.modelStep = PyResult.ok (some c) ∧
       (generate_admission_guide env).reply = pyStrip c) := by
  obtain ⟨ps, gs, ms, ts⟩ := env
  refine ⟨?_, ?_, ?_, ?_⟩
  · cases hrel : is_relevant_question question with
    | false => left; simp [get_response, hrel]
    | true =>
      rcases ps with prof | e₁
      · rcases gs with progs | e₂
        · rcases ms with mp | e₃
          · rcases mp with _ | content
            · right; left; simp [get_response, hrel]
            · right; right; exact ⟨content, rfl, by simp [get_response, hrel]⟩
          · right; left; simp [get_response, hrel]
        · right; left; simp [get_response, hrel]
      · right; left; simp [get_response, hrel]
  · rcases gs with progs | e₂
    · rcases ms with mp | e₃
      · rcases mp with _ | content
        · left; simp [generate_program_recommendation]
        · right; exact ⟨content, rfl, by simp [generate_program_recommendation]⟩
      · left; simp [generate_program_recommendation]
    · left; simp [generate_program_recommendation]
  · rcases gs with progs | e₂
    · rcases ms with mp | e₃
      · rcases mp with _ | content
        · left; simp [compare_programs]
        · right; exact ⟨content, rfl, by simp [compare_programs]⟩
      · left; simp [compare_programs]
    · left; simp [compare_programs]
  · rcases gs with progs | e₂
    · rcases ms with mp | e₃
      · rcases mp with _ | content
        · left; simp [generate_admission_guide]
        · right; exact ⟨content, rfl, by simp [generate_admission_guide]⟩
      · left; simp [generate_admission_guide]
    · left; simp [generate_admission_guide]

/-- C7: saving a program and retrieving it by name yields a record equal in
all fields (nested structures included); saving again under the same name
replaces the stored record — afterwards the store holds exactly one record
with that name, equal to the second write. -/
theorem program_store_roundtrip (db : Database) (p q : Program) :
    get_program (save_program db p) p.name = some p ∧
    (get_all_programs (save_program (save_program db p)
        { q with name := p.name })).filter (fun r => r.name == p.name)
      = [{ q with name := p.name }] := by
  constructor
  · unfold get_program save_program
    exact find?_filter_append_self db.programs p
  · simp only [get_all_programs, save_program, List.filter_append,
      filter_ne_idem, filter_eq_of_filter_ne]
    simp [List.filter_cons]

/-- C8: the directions sub-block is the fixed sentinel exactly when the
directions list is empty and is never the empty string; the FAQ sub-block is
the fixed FAQ sentinel exactly when the FAQ list is empty; and the FAQ
sub-block depends only on (and contains, in order, as Q/A pairs) the first
five FAQ entries. -/
theorem render_block_sentinels (ds : List Dir) (fs : List FaqItem) :
    (format_directions ds = "Информация о направлениях не найдена" ↔ ds = []) ∧
    format_directions ds ≠ "" ∧
    (format_faq fs = "FAQ не найден" ↔ fs = []) ∧
    format_faq fs = format_faq (fs.take 5) ∧
    (∀ qa ∈ fs.take 5, strIn (qaPair qa) (format_faq fs) = true) := by
  refine ⟨?_, ?_, ?_, ?_, ?_⟩
  · cases ds with
    | nil => simp [format_directions]
    | cons d ds' =>
      simp only [format_directions, List.isEmpty_cons, Bool.false_eq_true, if_false]
      constructor
      · intro h
        exact absurd h (dirLines_cons_ne_sentinel d ds')
      · intro h
        cases h
  · cases ds with
    | nil =>
      simp only [format_directions, List.isEmpty_nil, if_true]
      decide
    | cons d ds' =>
      simp only [format_directions, List.isEmpty_cons, Bool.false_eq_true, if_false]
      exact dirLines_cons_ne_empty d ds'
  · cases fs with
    | nil => simp [format_faq]
    | cons qa rest =>
      simp only [format_faq, List.isEmpty_cons, Bool.false_eq_true, if_false,
        List.take_succ_cons]
      constructor
      · intro h
        exact absurd h (qaLines_cons_ne_sentinel qa (rest.take 4))
      · intro h
        cases h
  · cases fs with
    | nil => rfl
    | cons qa rest =>
      simp [format_faq, List.take_take, List.take_succ_cons]
  · intro qa hqa
    cases fs with
    | nil => simp at hqa
    | cons q0 rest =>
      obtain ⟨s, t, hst⟩ := List.append_of_mem hqa
      have hfq : format_faq (q0 :: rest) = qaLines ((q0 :: rest).take 5) := by
        simp [format_faq]
      rw [hfq, hst, qaLines_append]
      exact strIn_of_parts (qaLines s) (qaPair qa) (qaLines t)

/-- Witness for C8 at the two empty lists: both sentinels are produced. -/
theorem render_block_sentinels_witness :
    format_directions [] = "Информация о направлениях не найдена" ∧
    format_faq [] = "FAQ не найден" :=
  ⟨(render_block_sentinels [] []).1.mpr rfl,
   (render_block_sentinels [] []).2.2.1.mpr rfl⟩

/-- Counterexample to C9 as stated: a direction whose `code` key is present
but holds the empty string renders as empty parentheses `()`, with no
placeholder anywhere in the output — `dict.get('code', 'N/A')` falls back to
the placeholder only when the key is absent, not when the code is empty. -/
theorem dir_code_placeholder_cex :
    format_directions
        [⟨some "Информатика и вычислительная техника", some "", some 50, some 10, some 40⟩]
      = "- Информатика и вычислительная техника ()\n  Бюджет: 50, Целевые: 10, Контракт: 40\n" ∧
    strIn "N/A"
      (format_directions
        [⟨some "Информатика и вычислительная техника", some "", some 50, some 10, some 40⟩])
      = false := by
  constructor
  · rfl
  · decide

/-- C9 (amended): for every direction in the rendered list, the output
contains that direction's line — its name and parenthesized code, where the
placeholder `N/A` stands in for the name or code exactly when the respective
key is absent (an empty-string code renders as-is inside the parentheses),
followed by the budget, target, and contract place counts (defaulting to 0
when absent). -/
theorem dir_line_rendered (ds : List Dir) (d : Dir) (h : d ∈ ds) :
    strIn (dirLine d) (format_directions ds) = true := by
  obtain ⟨s, t, hst⟩ := List.append_of_mem h
  subst hst
  have hne : (s ++ d :: t).isEmpty = false := by
    cases s <;> simp
  simp only [format_directions, hne, Bool.false_eq_true, if_false]
  rw [dirLines_append]
  exact strIn_of_parts (dirLines s) (dirLine d) (dirLines t)

/-- Witness for C9's amended theorem: the second direction's line (with the
`code` key absent, hence the `N/A` placeholder) occurs in the rendered
two-direction block. -/
theorem dir_line_rendered_witness :
    strIn (dirLine ⟨some "Искусственный интеллект", none, some 170, some 10, some 50⟩)
      (format_directions
        [⟨some "Информатика и вычислительная техника", some "09.04.01", some 51, some 4, some 55⟩,
         ⟨some "Искусственный интеллект", none, some 170, some 10, some 50⟩]) = true :=
  dir_line_rendered _ _ (by simp)
